import Mathlib

/-
Shallow embedding of `src/infrastructure/knex/utils/migration/relation-changes.ts`.

The TypeScript module computes schema-migration operations from two lists of
relation metadata records ("old" and "new") for one table.  The embedding
models the JavaScript semantics the module relies on:

* relation `type` is a loose string tag, compared with `===`;
* `targetTable` is either a reference object (with an optional numeric `id`)
  or a plain table-name string;
* `a || b` uses JS truthiness (an absent value or empty string is falsy; a
  number is falsy exactly when it is 0; an object is always truthy);
* `a ?? b` only falls back on absent values;
* JS `Map` is an insertion-ordered association list where `set` overwrites
  the value of an existing key in place;
* `diff` is a caller-supplied mutable object: `diff.columns.create` and
  `diff.columns.delete` must exist already (pushing through an undefined
  `columns` throws a `TypeError`), while `diff.crossTableOperations` and
  `diff.junctionTables` are initialized on demand;
* a thrown error aborts the remaining computation, but mutations already
  performed on `diff` stay in place.

The batched `knex('table_definition')` lookup is modelled by an explicit
table `db : List (Int × String)` of `{id, name}` rows, and the three naming
helpers (external collaborators per the spec) are parameters bundled in
`Naming`.  Logging is omitted: it does not affect the diff or control flow
(in `handleUpdatedRelations` the `changes` list only gates log output; when
the relation type differs the list is necessarily non-empty, so the type
change handler is invoked exactly when the types differ).
-/

/-- A relation's `targetTable` field: either a reference object carrying an
optional numeric identifier, or a plain table-name string. -/
inductive TargetTable where
  | obj (id : Option Int)
  | plain (s : String)
  deriving DecidableEq, Repr

/-- A value that can occupy the (resolved) `targetTableName` field.  Normally
a string, but the resolution step can leak the raw `targetTable` object into
it (JS has no type check there). -/
inductive TTName where
  | str (s : String)
  | obj (id : Option Int)
  deriving DecidableEq, Repr

/-- Errors the module can raise: the explicit `throw new Error(...)` for a
missing `inversePropertyName` during a type change (carrying the relation's
`propertyName`), and the implicit `TypeError` from pushing through an
undefined property of `diff` (carrying the property's name). -/
inductive JsErr where
  | missingInverse (propertyName : String)
  | typeError (prop : String)
  deriving DecidableEq, Repr

/-- JS truthiness of an optional string: `undefined` and the empty string are
falsy. -/
def jsTruthyStr : Option String → Bool
  | none => false
  | some s => !(s == "")

/-- JS truthiness of an optional `targetTableName` value: strings follow
string truthiness, objects are always truthy. -/
def jsTruthyTT : Option TTName → Bool
  | none => false
  | some (.str s) => !(s == "")
  | some (.obj _) => true

/-- JS `a || b` for an optional string `a` against a string default `b`. -/
def jsOrStr (a : Option String) (b : String) : String :=
  match a with
  | none => b
  | some s => if s == "" then b else s

/-- JS `Map.prototype.set`: overwrite the value of an existing key in place,
otherwise append the pair. -/
def jsMapSet {α : Type} (m : List (Int × α)) (k : Int) (v : α) : List (Int × α) :=
  if m.any (fun p => p.1 == k) then
    m.map (fun p => if p.1 == k then (k, v) else p)
  else
    m ++ [(k, v)]

/-- JS `Map.prototype.has`. -/
def jsMapHas {α : Type} (m : List (Int × α)) (k : Int) : Bool :=
  m.any (fun p => p.1 == k)

/-- JS `Map.prototype.get` (`none` models `undefined`). -/
def jsMapGet {α : Type} (m : List (Int × α)) (k : Int) : Option α :=
  (m.find? (fun p => p.1 == k)).map (fun p => p.2)

/-- `new Map(entries)`: insert the pairs in order. -/
def jsMapOfList {α : Type} (l : List (Int × α)) : List (Int × α) :=
  l.foldl (fun m p => jsMapSet m p.1 p.2) []

/-- One relation record, as consumed by `analyzeRelationChanges`. -/
structure Relation where
  id : Int
  propertyName : String
  type : String
  sourceTableName : Option String := none
  targetTable : TargetTable
  targetTableName : Option TTName := none
  inversePropertyName : Option String := none
  foreignKeyColumn : Option String := none
  isNullable : Option Bool := none
  junctionTableName : Option String := none
  deriving DecidableEq, Repr

/-- An entry of `diff.columns.create` (also the `column` payload of a
cross-table `createColumn` operation, whose `foreignKeyTarget` is then the
diffed table's name). -/
structure ColumnCreate where
  name : String
  type : String
  isNullable : Bool
  isForeignKey : Bool
  foreignKeyTarget : Option TTName
  foreignKeyColumn : String
  deriving DecidableEq, Repr

/-- An entry of `diff.columns.delete`. -/
structure ColumnDelete where
  name : String
  isForeignKey : Bool
  deriving DecidableEq, Repr

/-- An entry of `diff.crossTableOperations`. -/
inductive CrossOp where
  | dropColumn (targetTable : Option TTName) (columnName : String) (isForeignKey : Bool)
  | createColumn (targetTable : Option TTName) (column : ColumnCreate)
  deriving DecidableEq, Repr

/-- An entry of `diff.junctionTables.create`. -/
structure JunctionCreate where
  tableName : String
  sourceTable : String
  targetTable : Option TTName
  sourceColumn : String
  targetColumn : String
  deriving DecidableEq, Repr

/-- An entry of `diff.junctionTables.drop` (the relation's
`junctionTableName` may be absent and is pushed as-is). -/
structure JunctionDrop where
  tableName : Option String
  reason : String
  deriving DecidableEq, Repr

/-- The `diff.junctionTables` object.  No code path ever pushes to `update`,
so its entries carry no information. -/
structure JunctionTables where
  create : List JunctionCreate
  drop : List JunctionDrop
  update : List Unit
  deriving DecidableEq, Repr

/-- The `diff.columns` object. -/
structure Columns where
  create : List ColumnCreate
  delete : List ColumnDelete
  deriving DecidableEq, Repr

/-- The caller-supplied diff accumulator.  `columns` is `none` when the
caller omitted it (pushing then raises a `TypeError`); `crossTableOperations`
and `junctionTables` are initialized on demand by the module. -/
structure Diff where
  columns : Option Columns := none
  crossTableOperations : Option (List CrossOp) := none
  junctionTables : Option JunctionTables := none
  deriving DecidableEq, Repr

/-- The empty `junctionTables` object the module installs on demand. -/
def emptyJunctionTables : JunctionTables := ⟨[], [], []⟩

/-- The three naming collaborators (`getForeignKeyColumnName`,
`getJunctionTableName`, `getJunctionColumnNames` from `naming-helpers`),
external to this module and passed as parameters. -/
structure Naming where
  fkColumn : String → String
  junctionTable : String → String → Option TTName → String
  junctionColumns : String → String → Option TTName → String × String

/-- Result of a (possibly throwing) mutation pass: the diff in its final
state together with the error that aborted the pass, if any.  Mutations
performed before a throw remain visible. -/
abbrev Res : Type := Diff × Option JsErr

/-- `diff.columns.delete.push(c)`: a `TypeError` if `columns` is absent. -/
def pushColDelete (d : Diff) (c : ColumnDelete) : Res :=
  match d.columns with
  | none => (d, some (.typeError "columns"))
  | some cols => ({ d with columns := some { cols with delete := cols.delete ++ [c] } }, none)

/-- `diff.columns.create.push(c)`: a `TypeError` if `columns` is absent. -/
def pushColCreate (d : Diff) (c : ColumnCreate) : Res :=
  match d.columns with
  | none => (d, some (.typeError "columns"))
  | some cols => ({ d with columns := some { cols with create := cols.create ++ [c] } }, none)

/-- `if (!diff.crossTableOperations) diff.crossTableOperations = []`. -/
def initCross (d : Diff) : Diff :=
  match d.crossTableOperations with
  | none => { d with crossTableOperations := some [] }
  | some _ => d

/-- `if (!diff.junctionTables) diff.junctionTables = {create:[],drop:[],update:[]}`. -/
def initJunction (d : Diff) : Diff :=
  match d.junctionTables with
  | none => { d with junctionTables := some emptyJunctionTables }
  | some _ => d

/-- Push onto `diff.crossTableOperations`; in the source every such push is
preceded by the on-demand initialization, so the combined effect is an
append to the (possibly just-created) list. -/
def pushCross (d : Diff) (op : CrossOp) : Diff :=
  { d with crossTableOperations := some ((d.crossTableOperations.getD []) ++ [op]) }

/-- Push onto `diff.junctionTables.create` (after on-demand initialization). -/
def pushJunctionCreate (d : Diff) (e : JunctionCreate) : Diff :=
  let jt := d.junctionTables.getD emptyJunctionTables
  { d with junctionTables := some { jt with create := jt.create ++ [e] } }

/-- Push onto `diff.junctionTables.drop` (after on-demand initialization). -/
def pushJunctionDrop (d : Diff) (e : JunctionDrop) : Diff :=
  let jt := d.junctionTables.getD emptyJunctionTables
  { d with junctionTables := some { jt with drop := jt.drop ++ [e] } }

/-- The target-table identifier extracted from a relation:
`typeof rel.targetTable === 'object' ? rel.targetTable.id : null`. -/
def targetTableIdOf (rel : Relation) : Option Int :=
  match rel.targetTable with
  | .obj i => i
  | .plain _ => none

/-- The raw `targetTable` value as a `targetTableName` candidate (the
fallback of the resolution expression). -/
def ttNameOfTargetTable : TargetTable → Option TTName
  | .obj i => some (.obj i)
  | .plain s => some (.str s)

/-- Per-relation name resolution (the `.map` bodies on lines 36-52):
`sourceTableName := rel.sourceTableName || tableName` and
`targetTableName := rel.targetTableName ||
  (targetTableId ? targetTablesMap.get(targetTableId) : rel.targetTable)`.
A numeric id of `0` is falsy in JS, so the map is bypassed for it. -/
def resolveRel (targetTablesMap : List (Int × String)) (tableName : String) (rel : Relation) : Relation :=
  { rel with
    sourceTableName :=
      if jsTruthyStr rel.sourceTableName then rel.sourceTableName else some tableName,
    targetTableName :=
      if jsTruthyTT rel.targetTableName then rel.targetTableName
      else
        match targetTableIdOf rel with
        | some i =>
            if i == 0 then ttNameOfTargetTable rel.targetTable
            else (jsMapGet targetTablesMap i).map TTName.str
        | none => ttNameOfTargetTable rel.targetTable }

/-- The distinct-by-filter list of target-table identifiers collected from a
relation list (lines 21-23; `filter(id => id != null)` keeps `0`). -/
def collectTargetTableIds (rels : List Relation) : List Int :=
  rels.filterMap targetTableIdOf

/-- The id-to-name map built from the one batched lookup (lines 25-34):
`whereIn` restricts the `table_definition` rows to the collected ids, and
the rows found are inserted into a `Map`. -/
def buildTargetTablesMap (db : List (Int × String)) (rels : List Relation) : List (Int × String) :=
  if (collectTargetTableIds rels).length > 0 then
    jsMapOfList (db.filter (fun row => (collectTargetTableIds rels).contains row.1))
  else
    []

/-- `new Map(rels.map(r => [r.id, r]))`. -/
def relIdsMap (rels : List Relation) : List (Int × Relation) :=
  jsMapOfList (rels.map (fun r => (r.id, r)))

/-- Ids of deleted relations: in the old list, absent from the new map
(lines 61-63). -/
def deletedRelIds (oldRelations newRelations : List Relation) : List Int :=
  (oldRelations.filter (fun r => !(jsMapHas (relIdsMap newRelations) r.id))).map (fun r => r.id)

/-- Ids of created relations: in the new list, absent from the old map
(lines 65-67). -/
def createdRelIds (oldRelations newRelations : List Relation) : List Int :=
  (newRelations.filter (fun r => !(jsMapHas (relIdsMap oldRelations) r.id))).map (fun r => r.id)

/-- Ids of matched relations: the keys of the new map also present in the
old map (the pairs `handleUpdatedRelations` actually compares). -/
def matchedRelIds (oldRelations newRelations : List Relation) : List Int :=
  ((relIdsMap newRelations).filter (fun p => jsMapHas (relIdsMap oldRelations) p.1)).map (fun p => p.1)

/-- The body of `handleDeletedRelations` for one deleted relation id: find
the relation, branch on its type (lines 84-130). -/
def deletedRelStep (nm : Naming) (oldRelations : List Relation) (d : Diff) (relId : Int) : Res :=
  match oldRelations.find? (fun r => r.id == relId) with
  | none => (d, none)
  | some rel =>
    if rel.type == "many-to-one" || rel.type == "one-to-one" then
      pushColDelete d
        { name := jsOrStr rel.foreignKeyColumn (nm.fkColumn rel.propertyName),
          isForeignKey := true }
    else if rel.type == "one-to-many" then
      if !(jsTruthyStr rel.inversePropertyName) then (d, none)
      else
        (pushCross d
          (.dropColumn rel.targetTableName
            (jsOrStr rel.foreignKeyColumn (nm.fkColumn (rel.inversePropertyName.getD "")))
            true), none)
    else if rel.type == "many-to-many" then
      (pushJunctionDrop d { tableName := rel.junctionTableName, reason := "Relation deleted" }, none)
    else
      (d, none)

/-- The body of `handleCreatedRelations` for one created relation id
(lines 140-203). -/
def createdRelStep (nm : Naming) (newRelations : List Relation) (tableName : String) (d : Diff) (relId : Int) : Res :=
  match newRelations.find? (fun r => r.id == relId) with
  | none => (d, none)
  | some rel =>
    if rel.type == "many-to-one" || rel.type == "one-to-one" then
      pushColCreate d
        { name := jsOrStr rel.foreignKeyColumn (nm.fkColumn rel.propertyName),
          type := "int",
          isNullable := rel.isNullable.getD true,
          isForeignKey := true,
          foreignKeyTarget := rel.targetTableName,
          foreignKeyColumn := "id" }
    else if rel.type == "one-to-many" then
      if !(jsTruthyStr rel.inversePropertyName) then (d, none)
      else
        (pushCross d
          (.createColumn rel.targetTableName
            { name := jsOrStr rel.foreignKeyColumn (nm.fkColumn (rel.inversePropertyName.getD "")),
              type := "int",
              isNullable := true,
              isForeignKey := true,
              foreignKeyTarget := some (.str tableName),
              foreignKeyColumn := "id" }), none)
    else if rel.type == "many-to-many" then
      (pushJunctionCreate d
        { tableName := nm.junctionTable tableName rel.propertyName rel.targetTableName,
          sourceTable := tableName,
          targetTable := rel.targetTableName,
          sourceColumn := (nm.junctionColumns tableName rel.propertyName rel.targetTableName).1,
          targetColumn := (nm.junctionColumns tableName rel.propertyName rel.targetTableName).2 }, none)
    else
      (d, none)

/-- `handleRelationTypeChange` (lines 235-446): initialize the on-demand
containers, then dispatch on the ordered pair of type tags. -/
def handleRelationTypeChange (nm : Naming) (tableName : String) (oldRel newRel : Relation) (d0 : Diff) : Res :=
  let d := initJunction (initCross d0)
  if (oldRel.type == "many-to-one" || oldRel.type == "one-to-one") && newRel.type == "many-to-many" then
    match d.columns with
    | none => (d, some (.typeError "columns"))
    | some cols =>
      (pushJunctionCreate
        { d with columns := some { cols with delete := cols.delete ++
            [{ name := jsOrStr oldRel.foreignKeyColumn (nm.fkColumn oldRel.propertyName),
               isForeignKey := true }] } }
        { tableName := nm.junctionTable tableName newRel.propertyName newRel.targetTableName,
          sourceTable := tableName,
          targetTable := newRel.targetTableName,
          sourceColumn := (nm.junctionColumns tableName newRel.propertyName newRel.targetTableName).1,
          targetColumn := (nm.junctionColumns tableName newRel.propertyName newRel.targetTableName).2 }, none)
  else if oldRel.type == "many-to-many" && (newRel.type == "many-to-one" || newRel.type == "one-to-one") then
    pushColCreate
      (pushJunctionDrop d
        { tableName := oldRel.junctionTableName,
          reason := "Relation type changed from M2M to M2O/O2O" })
      { name := jsOrStr newRel.foreignKeyColumn (nm.fkColumn newRel.propertyName),
        type := "int",
        isNullable := newRel.isNullable.getD true,
        isForeignKey := true,
        foreignKeyTarget := newRel.targetTableName,
        foreignKeyColumn := "id" }
  else if oldRel.type == "one-to-many" && newRel.type == "many-to-many" then
    if !(jsTruthyStr oldRel.inversePropertyName) then
      (d, some (.missingInverse oldRel.propertyName))
    else
      (pushJunctionCreate
        (pushCross d
          (.dropColumn oldRel.targetTableName
            (jsOrStr oldRel.foreignKeyColumn (nm.fkColumn (oldRel.inversePropertyName.getD "")))
            true))
        { tableName := nm.junctionTable tableName newRel.propertyName newRel.targetTableName,
          sourceTable := tableName,
          targetTable := newRel.targetTableName,
          sourceColumn := (nm.junctionColumns tableName newRel.propertyName newRel.targetTableName).1,
          targetColumn := (nm.junctionColumns tableName newRel.propertyName newRel.targetTableName).2 }, none)
  else if oldRel.type == "many-to-many" && newRel.type == "one-to-many" then
    let d1 := pushJunctionDrop d
      { tableName := oldRel.junctionTableName,
        reason := "Relation type changed from M2M to O2M" }
    if !(jsTruthyStr newRel.inversePropertyName) then
      (d1, some (.missingInverse newRel.propertyName))
    else
      (pushCross d1
        (.createColumn newRel.targetTableName
          { name := jsOrStr newRel.foreignKeyColumn (nm.fkColumn (newRel.inversePropertyName.getD "")),
            type := "int",
            isNullable := true,
            isForeignKey := true,
            foreignKeyTarget := some (.str tableName),
            foreignKeyColumn := "id" }), none)
  else if (oldRel.type == "many-to-one" || oldRel.type == "one-to-one") && newRel.type == "one-to-many" then
    match d.columns with
    | none => (d, some (.typeError "columns"))
    | some cols =>
      let d1 : Diff := { d with columns := some { cols with delete := cols.delete ++
          [{ name := jsOrStr oldRel.foreignKeyColumn (nm.fkColumn oldRel.propertyName),
             isForeignKey := true }] } }
      if !(jsTruthyStr newRel.inversePropertyName) then
        (d1, some (.missingInverse newRel.propertyName))
      else
        (pushCross d1
          (.createColumn newRel.targetTableName
            { name := jsOrStr newRel.foreignKeyColumn (nm.fkColumn (newRel.inversePropertyName.getD "")),
              type := "int",
              isNullable := true,
              isForeignKey := true,
              foreignKeyTarget := some (.str tableName),
              foreignKeyColumn := "id" }), none)
  else if oldRel.type == "one-to-many" && (newRel.type == "many-to-one" || newRel.type == "one-to-one") then
    if !(jsTruthyStr oldRel.inversePropertyName) then
      (d, some (.missingInverse oldRel.propertyName))
    else
      pushColCreate
        (pushCross d
          (.dropColumn oldRel.targetTableName
            (jsOrStr oldRel.foreignKeyColumn (nm.fkColumn (oldRel.inversePropertyName.getD "")))
            true))
        { name := jsOrStr newRel.foreignKeyColumn (nm.fkColumn newRel.propertyName),
          type := "int",
          isNullable := newRel.isNullable.getD true,
          isForeignKey := true,
          foreignKeyTarget := newRel.targetTableName,
          foreignKeyColumn := "id" }
  else if (oldRel.type == "many-to-one" && newRel.type == "one-to-one") || (oldRel.type == "one-to-one" && newRel.type == "many-to-one") then
    (d, none)
  else
    (d, none)

/-- The body of `handleUpdatedRelations` for one entry of the new-relation
map (lines 213-232).  Only a `type` difference produces diff mutations; the
other field comparisons feed log output alone. -/
def updatedRelStep (nm : Naming) (tableName : String) (oldRelMap : List (Int × Relation)) (d : Diff) (entry : Int × Relation) : Res :=
  match jsMapGet oldRelMap entry.1 with
  | none => (d, none)
  | some oldRel =>
    if oldRel.type == entry.2.type then (d, none)
    else handleRelationTypeChange nm tableName oldRel entry.2 d

/-- Sequential execution of per-item steps over a shared diff: a thrown
error skips all remaining items but keeps the diff mutations made so far. -/
def runSteps {α : Type} (step : Diff → α → Res) : List α → Res → Res
  | [], st => st
  | x :: rest, (d, none) => runSteps step rest (step d x)
  | _ :: _, (d, some e) => (d, some e)

/-- `handleDeletedRelations` (lines 77-131). -/
def handleDeletedRelations (nm : Naming) (oldRelations : List Relation) (ids : List Int) (st : Res) : Res :=
  runSteps (deletedRelStep nm oldRelations) ids st

/-- `handleCreatedRelations` (lines 133-204). -/
def handleCreatedRelations (nm : Naming) (newRelations : List Relation) (tableName : String) (ids : List Int) (st : Res) : Res :=
  runSteps (createdRelStep nm newRelations tableName) ids st

/-- `handleUpdatedRelations` (lines 206-233). -/
def handleUpdatedRelations (nm : Naming) (tableName : String) (oldRelMap newRelMap : List (Int × Relation)) (st : Res) : Res :=
  runSteps (updatedRelStep nm tableName oldRelMap) newRelMap st

/-- `analyzeRelationChanges` (lines 11-75): resolve names through the one
batched lookup, classify by id, then run the three planners in order over
the shared diff. -/
def analyzeRelationChanges (db : List (Int × String)) (nm : Naming)
    (oldRelations newRelations : List Relation) (d : Diff) (tableName : String) : Res :=
  let targetTablesMap := buildTargetTablesMap db (oldRelations ++ newRelations)
  let old := oldRelations.map (resolveRel targetTablesMap tableName)
  let new := newRelations.map (resolveRel targetTablesMap tableName)
  handleUpdatedRelations nm tableName (relIdsMap old) (relIdsMap new)
    (handleCreatedRelations nm new tableName (createdRelIds old new)
      (handleDeletedRelations nm old (deletedRelIds old new) (d, none)))

/-! ### Basic lemmas about the diff helpers -/

theorem initCross_eq (d : Diff) :
    initCross d = { d with crossTableOperations := some (d.crossTableOperations.getD []) } := by
  obtain ⟨c, x, j⟩ := d
  cases x <;> rfl

theorem initJunction_eq (d : Diff) :
    initJunction d
      = { d with junctionTables := some (d.junctionTables.getD emptyJunctionTables) } := by
  obtain ⟨c, x, j⟩ := d
  cases j <;> rfl

theorem runSteps_nil {α : Type} (step : Diff → α → Res) (st : Res) :
    runSteps step [] st = st := rfl

theorem runSteps_cons_ok {α : Type} (step : Diff → α → Res) (x : α) (rest : List α) (d : Diff) :
    runSteps step (x :: rest) (d, none) = runSteps step rest (step d x) := rfl

theorem runSteps_err {α : Type} (step : Diff → α → Res) (xs : List α) (d : Diff) (e : JsErr) :
    runSteps step xs (d, some e) = (d, some e) := by
  cases xs <;> rfl

theorem runSteps_append {α : Type} (step : Diff → α → Res) (a b : List α) (st : Res) :
    runSteps step (a ++ b) st = runSteps step b (runSteps step a st) := by
  induction a generalizing st with
  | nil => rfl
  | cons x rest ih =>
    obtain ⟨d, e⟩ := st
    cases e with
    | none => rw [List.cons_append, runSteps_cons_ok, runSteps_cons_ok, ih]
    | some e => rw [runSteps_err, runSteps_err, runSteps_err]

/-! ### Lemmas about the JS map model -/

theorem jsMapHas_set {α : Type} (m : List (Int × α)) (k j : Int) (v : α) :
    jsMapHas (jsMapSet m k v) j = (jsMapHas m j || k == j) := by
  unfold jsMapHas jsMapSet
  by_cases hk : m.any (fun p => p.1 == k)
  · rw [if_pos hk, List.any_map]
    by_cases hkj : k = j
    · subst hkj
      simp only [beq_self_eq_true, Bool.or_true]
      rw [List.any_eq_true] at hk ⊢
      obtain ⟨p, hp, hpk⟩ := hk
      exact ⟨p, hp, by simp_all⟩
    · have hfun : ((fun q : Int × α => q.1 == j) ∘ (fun p => if p.1 == k then (k, v) else p))
          = (fun p : Int × α => p.1 == j) := by
        funext p
        by_cases hpk : p.1 = k <;> simp [hpk]
      rw [hfun]
      simp [beq_eq_false_iff_ne, hkj]
  · rw [if_neg hk, List.any_append]
    simp

theorem jsMapHas_foldl {α : Type} (l : List (Int × α)) (m0 : List (Int × α)) (j : Int) :
    jsMapHas (l.foldl (fun m p => jsMapSet m p.1 p.2) m0) j
      = (jsMapHas m0 j || l.any (fun p => p.1 == j)) := by
  induction l generalizing m0 with
  | nil => simp
  | cons p rest ih =>
    rw [List.foldl_cons, ih, jsMapHas_set]
    simp [Bool.or_assoc]

theorem jsMapHas_ofList {α : Type} (l : List (Int × α)) (j : Int) :
    jsMapHas (jsMapOfList l) j = l.any (fun p => p.1 == j) := by
  rw [jsMapOfList, jsMapHas_foldl]
  simp [jsMapHas]

theorem list_any_map {α β : Type} (f : α → β) (l : List α) (p : β → Bool) :
    (l.map f).any p = l.any (fun a => p (f a)) := by
  induction l with
  | nil => rfl
  | cons x rest ih => simp [ih]

theorem jsMapHas_relIdsMap (rels : List Relation) (i : Int) :
    jsMapHas (relIdsMap rels) i = true ↔ i ∈ rels.map (fun r => r.id) := by
  rw [relIdsMap, jsMapHas_ofList, list_any_map]
  simp [List.any_eq_true, List.mem_map]

theorem mem_keys_iff_jsMapHas {α : Type} (m : List (Int × α)) (i : Int) :
    (∃ p ∈ m, p.1 = i) ↔ jsMapHas m i = true := by
  rw [jsMapHas, List.any_eq_true]
  constructor
  · rintro ⟨p, hp, hpi⟩
    exact ⟨p, hp, by simp [hpi]⟩
  · rintro ⟨p, hp, hpi⟩
    exact ⟨p, hp, beq_iff_eq.mp (by simpa using hpi)⟩

theorem jsMapHas_relIdsMap_eq (rels : List Relation) (i : Int) :
    jsMapHas (relIdsMap rels) i = decide (i ∈ rels.map (fun r => r.id)) := by
  by_cases h : i ∈ rels.map (fun r => r.id)
  · simp [h, (jsMapHas_relIdsMap rels i).2 h]
  · rw [decide_eq_false h, Bool.eq_false_iff]
    intro hh
    exact h ((jsMapHas_relIdsMap rels i).1 hh)

theorem mem_deletedRelIds (oldRelations newRelations : List Relation) (i : Int) :
    i ∈ deletedRelIds oldRelations newRelations
      ↔ (i ∈ oldRelations.map (fun r => r.id) ∧ i ∉ newRelations.map (fun r => r.id)) := by
  simp only [deletedRelIds, List.mem_map, List.mem_filter, jsMapHas_relIdsMap_eq,
    Bool.not_eq_true', decide_eq_false_iff_not]
  constructor
  · rintro ⟨r, ⟨hr, hnp⟩, rfl⟩
    exact ⟨⟨r, hr, rfl⟩, hnp⟩
  · rintro ⟨⟨r, hr, rfl⟩, hnp⟩
    exact ⟨r, ⟨hr, hnp⟩, rfl⟩

theorem mem_createdRelIds (oldRelations newRelations : List Relation) (i : Int) :
    i ∈ createdRelIds oldRelations newRelations
      ↔ (i ∈ newRelations.map (fun r => r.id) ∧ i ∉ oldRelations.map (fun r => r.id)) := by
  simp only [createdRelIds, List.mem_map, List.mem_filter, jsMapHas_relIdsMap_eq,
    Bool.not_eq_true', decide_eq_false_iff_not]
  constructor
  · rintro ⟨r, ⟨hr, hnp⟩, rfl⟩
    exact ⟨⟨r, hr, rfl⟩, hnp⟩
  · rintro ⟨⟨r, hr, rfl⟩, hnp⟩
    exact ⟨r, ⟨hr, hnp⟩, rfl⟩

theorem mem_matchedRelIds (oldRelations newRelations : List Relation) (i : Int) :
    i ∈ matchedRelIds oldRelations newRelations
      ↔ (i ∈ oldRelations.map (fun r => r.id) ∧ i ∈ newRelations.map (fun r => r.id)) := by
  rw [matchedRelIds]
  constructor
  · intro h
    obtain ⟨p, hpf, hpi⟩ := List.mem_map.1 h
    obtain ⟨hp, hhas⟩ := List.mem_filter.1 hpf
    subst hpi
    refine ⟨(jsMapHas_relIdsMap _ _).1 hhas, ?_⟩
    have hkey : jsMapHas (relIdsMap newRelations) p.1 = true :=
      (mem_keys_iff_jsMapHas _ _).1 ⟨p, hp, rfl⟩
    exact (jsMapHas_relIdsMap _ _).1 hkey
  · rintro ⟨hio, hin⟩
    have hhasn : jsMapHas (relIdsMap newRelations) i = true := (jsMapHas_relIdsMap _ _).2 hin
    obtain ⟨p, hp, hpi⟩ := (mem_keys_iff_jsMapHas _ _).2 hhasn
    refine List.mem_map.2 ⟨p, List.mem_filter.2 ⟨hp, ?_⟩, hpi⟩
    rw [hpi]
    exact (jsMapHas_relIdsMap _ _).2 hio

/-- C2: for every pair of old and new relation lists (with ids unique within
each list), the classifier's groups deleted, created and matched are pairwise
disjoint, and their union is exactly the union of the ids of the old and new
lists. -/
theorem relation_classifier_partitions (oldRelations newRelations : List Relation) (i : Int)
    (_hold : (oldRelations.map (fun r => r.id)).Nodup)
    (_hnew : (newRelations.map (fun r => r.id)).Nodup) :
    (¬ (i ∈ deletedRelIds oldRelations newRelations ∧ i ∈ createdRelIds oldRelations newRelations)
     ∧ ¬ (i ∈ deletedRelIds oldRelations newRelations ∧ i ∈ matchedRelIds oldRelations newRelations)
     ∧ ¬ (i ∈ createdRelIds oldRelations newRelations ∧ i ∈ matchedRelIds oldRelations newRelations))
    ∧ ((i ∈ deletedRelIds oldRelations newRelations ∨ i ∈ createdRelIds oldRelations newRelations
        ∨ i ∈ matchedRelIds oldRelations newRelations)
       ↔ (i ∈ oldRelations.map (fun r => r.id) ∨ i ∈ newRelations.map (fun r => r.id))) := by
  simp only [mem_deletedRelIds, mem_createdRelIds, mem_matchedRelIds]
  tauto

/-! ### The Type-Change Resolver -/

theorem hrtc_o2m_to_m2m_missing (nm : Naming) (tableName : String) (oldRel newRel : Relation)
    (d : Diff)
    (hot : oldRel.type = "one-to-many") (hnt : newRel.type = "many-to-many")
    (hinv : jsTruthyStr oldRel.inversePropertyName = false) :
    handleRelationTypeChange nm tableName oldRel newRel d
      = (initJunction (initCross d), some (.missingInverse oldRel.propertyName)) := by
  unfold handleRelationTypeChange
  rw [hot, hnt]
  simp [hinv]

/-- C1: on a matched pair changing type from one-to-many to many-to-many
whose old relation lacks `inversePropertyName`, the update pass aborts with
the fatal missing-inverse error; the diff receives no operation entry for
that relation (only the on-demand container initialization), operations
already appended by earlier matched pairs of the same batch (`d1`) remain in
place, and later pairs are not processed. -/
theorem type_change_missing_inverse_is_fatal_and_scoped (nm : Naming) (tableName : String)
    (oldRelMap : List (Int × Relation)) (pairs1 pairs2 : List (Int × Relation))
    (relId : Int) (newRel oldRel : Relation) (d0 d1 : Diff)
    (hpre : handleUpdatedRelations nm tableName oldRelMap pairs1 (d0, none) = (d1, none))
    (hget : jsMapGet oldRelMap relId = some oldRel)
    (hot : oldRel.type = "one-to-many") (hnt : newRel.type = "many-to-many")
    (hinv : jsTruthyStr oldRel.inversePropertyName = false) :
    handleUpdatedRelations nm tableName oldRelMap (pairs1 ++ (relId, newRel) :: pairs2) (d0, none)
      = (initJunction (initCross d1), some (.missingInverse oldRel.propertyName)) := by
  unfold handleUpdatedRelations at hpre ⊢
  rw [runSteps_append, hpre, runSteps_cons_ok]
  have hstep : updatedRelStep nm tableName oldRelMap d1 (relId, newRel)
      = (initJunction (initCross d1), some (.missingInverse oldRel.propertyName)) := by
    unfold updatedRelStep
    simp only [hget]
    rw [hot, hnt]
    simp only [String.reduceBEq, Bool.false_eq_true, if_false]
    exact hrtc_o2m_to_m2m_missing nm tableName oldRel newRel d1 hot hnt hinv
  rw [hstep, runSteps_err]

/-- C3: a matched pair changing type from many-to-one to many-to-many emits
exactly two operations, in order: one `columns.delete` entry for the foreign
key derived from the old relation (explicit `foreignKeyColumn` override or
the naming collaborator applied to the old `propertyName`), then one
`junctionTables.create` entry whose names come from the collaborators
applied to (table name, new `propertyName`, new `targetTableName`); nothing
else in the diff changes. -/
theorem type_change_m2o_to_m2m_two_ops (nm : Naming) (tableName : String)
    (oldRel newRel : Relation) (d : Diff) (cols : Columns)
    (hot : oldRel.type = "many-to-one") (hnt : newRel.type = "many-to-many")
    (hcols : d.columns = some cols) :
    handleRelationTypeChange nm tableName oldRel newRel d
      = ({ columns := some { cols with delete := cols.delete ++
              [{ name := jsOrStr oldRel.foreignKeyColumn (nm.fkColumn oldRel.propertyName),
                 isForeignKey := true }] },
           crossTableOperations := some (d.crossTableOperations.getD []),
           junctionTables := some
             { create := (d.junctionTables.getD emptyJunctionTables).create ++
                 [{ tableName := nm.junctionTable tableName newRel.propertyName newRel.targetTableName,
                    sourceTable := tableName,
                    targetTable := newRel.targetTableName,
                    sourceColumn := (nm.junctionColumns tableName newRel.propertyName newRel.targetTableName).1,
                    targetColumn := (nm.junctionColumns tableName newRel.propertyName newRel.targetTableName).2 }],
               drop := (d.junctionTables.getD emptyJunctionTables).drop,
               update := (d.junctionTables.getD emptyJunctionTables).update } }, none) := by
  unfold handleRelationTypeChange
  rw [hot, hnt]
  simp [initCross_eq, initJunction_eq, pushJunctionCreate, hcols]

/-- C6: a matched pair changing type between many-to-one and one-to-one (in
either direction) emits no operation: no error, `columns` untouched, and the
`crossTableOperations` and `junctionTables` entry lists unchanged (only the
empty containers may be installed). -/
theorem type_change_m2o_o2o_emits_nothing (nm : Naming) (tableName : String)
    (oldRel newRel : Relation) (d : Diff)
    (h : (oldRel.type = "many-to-one" ∧ newRel.type = "one-to-one")
       ∨ (oldRel.type = "one-to-one" ∧ newRel.type = "many-to-one")) :
    (handleRelationTypeChange nm tableName oldRel newRel d).2 = none
    ∧ ((handleRelationTypeChange nm tableName oldRel newRel d).1).columns = d.columns
    ∧ ((handleRelationTypeChange nm tableName oldRel newRel d).1).crossTableOperations.getD []
        = d.crossTableOperations.getD []
    ∧ ((handleRelationTypeChange nm tableName oldRel newRel d).1).junctionTables.getD emptyJunctionTables
        = d.junctionTables.getD emptyJunctionTables := by
  have hres : handleRelationTypeChange nm tableName oldRel newRel d
      = (initJunction (initCross d), none) := by
    rcases h with ⟨h1, h2⟩ | ⟨h1, h2⟩ <;>
      · unfold handleRelationTypeChange
        rw [h1, h2]
        simp
  rw [hres]
  simp [initCross_eq, initJunction_eq]

/-- C9: for every pair handed to the Type-Change Resolver — whatever the two
types, including the no-op many-to-one/one-to-one pair, unhandled pairs, and
the pairs that end in the fatal missing-inverse error — the resulting diff
has `crossTableOperations` and `junctionTables` present (initialized before
anything else, hence present even when an error is raised). -/
theorem type_change_initializes_containers (nm : Naming) (tableName : String)
    (oldRel newRel : Relation) (d : Diff) :
    ((handleRelationTypeChange nm tableName oldRel newRel d).1.crossTableOperations).isSome = true
    ∧ ((handleRelationTypeChange nm tableName oldRel newRel d).1.junctionTables).isSome = true := by
  obtain ⟨dcols, dcross, djunc⟩ := d
  simp only [handleRelationTypeChange, initCross_eq, initJunction_eq]
  cases dcols <;> (repeat' split) <;>
    simp [pushColCreate, pushCross, pushJunctionCreate, pushJunctionDrop]

/-! ### The Creation Planner and the Name Resolver -/

/-- C4: a created one-to-many relation lacking `inversePropertyName` is
skipped by the Creation Planner: its step leaves the diff untouched and
raises no error, and the pass over the remaining created relation ids
continues exactly as if the relation had been handled. -/
theorem created_o2m_missing_inverse_skipped (nm : Naming) (newRelations : List Relation)
    (tableName : String) (d : Diff) (relId : Int) (rel : Relation) (restIds : List Int)
    (hfind : newRelations.find? (fun r => r.id == relId) = some rel)
    (htype : rel.type = "one-to-many")
    (hinv : jsTruthyStr rel.inversePropertyName = false) :
    createdRelStep nm newRelations tableName d relId = (d, none)
    ∧ handleCreatedRelations nm newRelations tableName (relId :: restIds) (d, none)
        = handleCreatedRelations nm newRelations tableName restIds (d, none) := by
  have hstep : createdRelStep nm newRelations tableName d relId = (d, none) := by
    unfold createdRelStep
    rw [hfind]
    simp [htype, hinv]
  refine ⟨hstep, ?_⟩
  unfold handleCreatedRelations
  rw [runSteps_cons_ok, hstep]

/-- C5: a created many-to-many relation on table "Post" with `propertyName`
"tags" targeting table "Tag" emits exactly one `junctionTables.create` entry
whose `sourceTable` is "Post", `targetTable` is "Tag", and whose table and
column names are the junction naming collaborators applied to the triple
("Post", "tags", "Tag"); nothing else in the diff changes. -/
theorem created_m2m_post_tags_tag_junction (nm : Naming) (newRelations : List Relation)
    (d : Diff) (relId : Int) (rel : Relation)
    (hfind : newRelations.find? (fun r => r.id == relId) = some rel)
    (htype : rel.type = "many-to-many")
    (hprop : rel.propertyName = "tags")
    (htarget : rel.targetTableName = some (.str "Tag")) :
    createdRelStep nm newRelations "Post" d relId
      = ({ d with junctionTables := some ({
                create := (d.junctionTables.getD emptyJunctionTables).create ++
                  [{ tableName := nm.junctionTable "Post" "tags" (some (.str "Tag")),
                     sourceTable := "Post",
                     targetTable := some (.str "Tag"),
                     sourceColumn := (nm.junctionColumns "Post" "tags" (some (.str "Tag"))).1,
                     targetColumn := (nm.junctionColumns "Post" "tags" (some (.str "Tag"))).2 }],
                drop := (d.junctionTables.getD emptyJunctionTables).drop,
                update := (d.junctionTables.getD emptyJunctionTables).update } : JunctionTables) }, none) := by
  unfold createdRelStep
  rw [hfind]
  simp [htype, hprop, htarget, pushJunctionCreate]

/-- A relation whose target-table reference carries the identifier 0, used
to exhibit the falsy-zero behaviour of the name-resolution step. -/
def relZeroId : Relation :=
  { id := 9, propertyName := "owner", type := "many-to-one", targetTable := .obj (some 0) }

/-- C7 counterexample: the claim fails for a reference object whose
identifier is 0.  Even though the batched lookup finds identifier 0 (the
built map returns "Zero" for it), the resolution step does not assign the
resolved name — JS treats the number 0 as falsy and falls back to the raw
`targetTable` object; likewise, with an empty lookup table the unresolved
`targetTableName` is not left undefined but becomes the reference object. -/
theorem name_resolution_zero_id_counterexample :
    (jsMapGet (buildTargetTablesMap [(0, "Zero")] [relZeroId]) 0 = some "Zero"
     ∧ relZeroId.targetTableName = none
     ∧ (resolveRel (buildTargetTablesMap [(0, "Zero")] [relZeroId]) "T" relZeroId).targetTableName
         ≠ some (.str "Zero"))
    ∧ (resolveRel (buildTargetTablesMap [] [relZeroId]) "T" relZeroId).targetTableName ≠ none := by
  decide

/-- C7 (amended): name resolution behaves as claimed for nonzero
identifiers: a relation lacking `targetTableName` whose `targetTable` is a
reference object with a nonzero identifier found by the lookup receives the
resolved name; a relation whose `targetTable` is a plain name gets that
name; a relation already carrying a truthy `targetTableName` keeps it; and
a nonzero identifier missing from the lookup leaves `targetTableName`
undefined.  (For identifier 0, JS truthiness bypasses the lookup and the
raw reference object leaks into `targetTableName`.) -/
theorem name_resolution_contract_amended (m : List (Int × String)) (tableName : String)
    (rel : Relation) (i : Int) (nameStr : String) :
    (rel.targetTableName = none → rel.targetTable = .obj (some i) → i ≠ 0 →
       jsMapGet m i = some nameStr →
       (resolveRel m tableName rel).targetTableName = some (.str nameStr))
    ∧ (∀ s, rel.targetTable = .plain s → rel.targetTableName = none →
       (resolveRel m tableName rel).targetTableName = some (.str s))
    ∧ (jsTruthyTT rel.targetTableName = true →
       (resolveRel m tableName rel).targetTableName = rel.targetTableName)
    ∧ (rel.targetTableName = none → rel.targetTable = .obj (some i) → i ≠ 0 →
       jsMapGet m i = none →
       (resolveRel m tableName rel).targetTableName = none) := by
  refine ⟨?_, ?_, ?_, ?_⟩
  · intro h1 h2 h3 h4
    simp [resolveRel, targetTableIdOf, h1, h2, h4, jsTruthyTT, h3]
  · intro s h2 h1
    simp [resolveRel, targetTableIdOf, h1, h2, jsTruthyTT, ttNameOfTargetTable]
  · intro h
    simp [resolveRel, h]
  · intro h1 h2 h3 h4
    simp [resolveRel, targetTableIdOf, h1, h2, h4, jsTruthyTT, h3]

/-- C8: the whole analysis is deterministic in its inputs — with the same
lookup table, naming collaborators, relation lists, table name, and a fresh
diff accumulator, two runs produce structurally identical results. -/
theorem analyze_relation_changes_deterministic (db : List (Int × String)) (nm : Naming)
    (oldRelations newRelations : List Relation) (d : Diff) (tableName : String) :
    analyzeRelationChanges db nm oldRelations newRelations d tableName
      = analyzeRelationChanges db nm oldRelations newRelations d tableName := rfl

/-! ### Column-container discipline -/

theorem pushColDelete_columns_isSome (d : Diff) (c : ColumnDelete) :
    (((pushColDelete d c).1).columns).isSome = (d.columns).isSome := by
  cases hd : d.columns <;> simp [pushColDelete, hd]

theorem pushColCreate_columns_isSome (d : Diff) (c : ColumnCreate) :
    (((pushColCreate d c).1).columns).isSome = (d.columns).isSome := by
  cases hd : d.columns <;> simp [pushColCreate, hd]

theorem deletedRelStep_columns_isSome (nm : Naming) (rels : List Relation) (d : Diff) (relId : Int) :
    (((deletedRelStep nm rels d relId).1).columns).isSome = (d.columns).isSome := by
  unfold deletedRelStep
  (repeat' split) <;> simp [pushColDelete_columns_isSome, pushCross, pushJunctionDrop]

theorem createdRelStep_columns_isSome (nm : Naming) (rels : List Relation) (tableName : String)
    (d : Diff) (relId : Int) :
    (((createdRelStep nm rels tableName d relId).1).columns).isSome = (d.columns).isSome := by
  unfold createdRelStep
  (repeat' split) <;> simp [pushColCreate_columns_isSome, pushCross, pushJunctionCreate]

theorem hrtc_columns_isSome (nm : Naming) (tableName : String) (oldRel newRel : Relation) (d : Diff) :
    (((handleRelationTypeChange nm tableName oldRel newRel d).1).columns).isSome
      = (d.columns).isSome := by
  obtain ⟨dcols, dcross, djunc⟩ := d
  simp only [handleRelationTypeChange, initCross_eq, initJunction_eq]
  cases dcols <;> (repeat' split) <;>
    simp_all [pushColCreate, pushCross, pushJunctionCreate, pushJunctionDrop]

theorem updatedRelStep_columns_isSome (nm : Naming) (tableName : String)
    (oldRelMap : List (Int × Relation)) (d : Diff) (entry : Int × Relation) :
    (((updatedRelStep nm tableName oldRelMap d entry).1).columns).isSome = (d.columns).isSome := by
  unfold updatedRelStep
  (repeat' split) <;> simp [hrtc_columns_isSome]

theorem runSteps_columns_isSome {α : Type} (step : Diff → α → Res)
    (hstep : ∀ d x, (((step d x).1).columns).isSome = (d.columns).isSome)
    (xs : List α) (st : Res) :
    (((runSteps step xs st).1).columns).isSome = ((st.1).columns).isSome := by
  induction xs generalizing st with
  | nil => rfl
  | cons x rest ih =>
    obtain ⟨d, e⟩ := st
    cases e with
    | none => rw [runSteps_cons_ok, ih, hstep]
    | some e => rw [runSteps_err]

/-! ### Concrete fixtures for the closed-instance theorems -/

/-- A concrete instantiation of the three naming collaborators. -/
def namingFixture : Naming :=
  ⟨fun p => p ++ "Id",
   fun t p _ => t ++ "_" ++ p,
   fun t p _ => (t ++ "Id", p ++ "Id")⟩

/-- A many-to-one relation slated for deletion. -/
def relDeletedM2O : Relation :=
  { id := 1, propertyName := "author", type := "many-to-one", targetTable := .plain "User" }

/-- A created one-to-many relation that does carry `inversePropertyName`. -/
def relCreatedO2M : Relation :=
  { id := 2, propertyName := "comments", type := "one-to-many", targetTable := .plain "Comment",
    targetTableName := some (.str "Comment"), inversePropertyName := some "post" }

/-- A created many-to-many relation. -/
def relCreatedM2M : Relation :=
  { id := 3, propertyName := "tags", type := "many-to-many", targetTable := .plain "Tag",
    targetTableName := some (.str "Tag") }

/-- C10: the module requires `diff.columns` from its caller and never
installs it itself — the presence of `columns` after a full analysis equals
its presence before, for every input; with `columns` omitted a deletion of a
many-to-one relation aborts with the `TypeError` from the push; and with
`columns` supplied but `crossTableOperations` and `junctionTables` omitted
the analysis succeeds and installs both containers on demand. -/
theorem diff_columns_required_containers_on_demand :
    (∀ (db : List (Int × String)) (nm : Naming) (oldRelations newRelations : List Relation)
       (d : Diff) (tableName : String),
       (((analyzeRelationChanges db nm oldRelations newRelations d tableName).1).columns).isSome
         = (d.columns).isSome)
    ∧ analyzeRelationChanges [] namingFixture [relDeletedM2O] [] { columns := none } "Post"
        = ({ columns := none }, some (.typeError "columns"))
    ∧ ((analyzeRelationChanges [] namingFixture [] [relCreatedO2M, relCreatedM2M]
          { columns := some { create := [], delete := [] } } "Post").2 = none
       ∧ (((analyzeRelationChanges [] namingFixture [] [relCreatedO2M, relCreatedM2M]
             { columns := some { create := [], delete := [] } } "Post").1).crossTableOperations).isSome = true
       ∧ (((analyzeRelationChanges [] namingFixture [] [relCreatedO2M, relCreatedM2M]
             { columns := some { create := [], delete := [] } } "Post").1).junctionTables).isSome = true) := by
  refine ⟨?_, by decide, by decide⟩
  intro db nm oldRelations newRelations d tableName
  simp only [analyzeRelationChanges, handleUpdatedRelations, handleCreatedRelations,
    handleDeletedRelations]
  rw [runSteps_columns_isSome _ (fun d x => updatedRelStep_columns_isSome nm tableName _ d x),
      runSteps_columns_isSome _ (fun d x => createdRelStep_columns_isSome nm _ tableName d x),
      runSteps_columns_isSome _ (fun d x => deletedRelStep_columns_isSome nm _ d x)]

/-! ### Witness fixtures -/

/-- Old side of a matched pair whose type changes from many-to-one. -/
def relUpdM2Oold : Relation :=
  { id := 2, propertyName := "author", type := "many-to-one", targetTable := .plain "User",
    targetTableName := some (.str "User") }

/-- New side of the matched pair 2: now many-to-many. -/
def relUpdM2Mnew2 : Relation :=
  { id := 2, propertyName := "author", type := "many-to-many", targetTable := .plain "User",
    targetTableName := some (.str "User") }

/-- New side of the matched pair 2: now one-to-one. -/
def relUpdO2Onew2 : Relation :=
  { id := 2, propertyName := "author", type := "one-to-one", targetTable := .plain "User",
    targetTableName := some (.str "User") }

/-- Old side of matched pair 3: one-to-many without `inversePropertyName`. -/
def relUpdO2Mold : Relation :=
  { id := 3, propertyName := "comments", type := "one-to-many", targetTable := .plain "Comment",
    targetTableName := some (.str "Comment") }

/-- New side of matched pair 3: now many-to-many. -/
def relUpdM2Mnew3 : Relation :=
  { id := 3, propertyName := "comments", type := "many-to-many", targetTable := .plain "Comment",
    targetTableName := some (.str "Comment") }

/-- A created one-to-many relation lacking `inversePropertyName`. -/
def relCreatedO2MNoInv : Relation :=
  { id := 7, propertyName := "comments", type := "one-to-many", targetTable := .plain "Comment" }

/-- A relation whose target-table reference carries identifier 5. -/
def relRefFive : Relation :=
  { id := 4, propertyName := "owner", type := "many-to-one", targetTable := .obj (some 5) }

/-- A relation whose target table is the plain name "Tag". -/
def relPlainTag : Relation :=
  { id := 5, propertyName := "tag", type := "many-to-one", targetTable := .plain "Tag" }

/-- The old-relation map used by the C1 witness batch. -/
def cOldMap : List (Int × Relation) := [(2, relUpdM2Oold), (3, relUpdO2Mold)]

/-- The matched pairs processed before the failing pair in the C1 witness. -/
def cPairs1 : List (Int × Relation) := [(2, relUpdM2Mnew2)]

/-- A fresh caller-supplied diff with the mandatory `columns` arrays. -/
def cD0 : Diff := { columns := some { create := [], delete := [] } }

/-- The diff state after the first (successful) matched pair of the C1
witness batch: the two operations of the many-to-one to many-to-many
transition for relation 2. -/
def cD1 : Diff :=
  { columns := some { create := [], delete := [{ name := "authorId", isForeignKey := true }] },
    crossTableOperations := some [],
    junctionTables := some ({
      create := [{ tableName := "Post_author", sourceTable := "Post",
                   targetTable := some (.str "User"), sourceColumn := "PostId",
                   targetColumn := "authorId" }],
      drop := [], update := [] } : JunctionTables) }

/-! ### Witnesses -/

/-- Witness for C1: a two-pair batch where the first pair succeeds and the
second (one-to-many to many-to-many, inverse missing) aborts; the first
pair's operations (`cD1`) survive the abort. -/
theorem type_change_missing_inverse_witness :
    (handleUpdatedRelations namingFixture "Post" cOldMap cPairs1 (cD0, none) = (cD1, none)
     ∧ jsMapGet cOldMap 3 = some relUpdO2Mold
     ∧ relUpdO2Mold.type = "one-to-many"
     ∧ relUpdM2Mnew3.type = "many-to-many"
     ∧ jsTruthyStr relUpdO2Mold.inversePropertyName = false)
    ∧ handleUpdatedRelations namingFixture "Post" cOldMap
        (cPairs1 ++ (3, relUpdM2Mnew3) :: []) (cD0, none)
        = (initJunction (initCross cD1), some (.missingInverse relUpdO2Mold.propertyName)) :=
  ⟨⟨by decide, by decide, rfl, rfl, rfl⟩,
   type_change_missing_inverse_is_fatal_and_scoped namingFixture "Post" cOldMap cPairs1 []
     3 relUpdM2Mnew3 relUpdO2Mold cD0 cD1 (by decide) (by decide) rfl rfl rfl⟩

/-- Witness for C2 at the singleton lists with ids 1 and 3 and probe id 1. -/
theorem relation_classifier_partitions_witness :
    ((([relDeletedM2O] : List Relation).map (fun r => r.id)).Nodup
     ∧ (([relCreatedM2M] : List Relation).map (fun r => r.id)).Nodup)
    ∧ ((¬ ((1 : Int) ∈ deletedRelIds [relDeletedM2O] [relCreatedM2M]
            ∧ (1 : Int) ∈ createdRelIds [relDeletedM2O] [relCreatedM2M])
        ∧ ¬ ((1 : Int) ∈ deletedRelIds [relDeletedM2O] [relCreatedM2M]
            ∧ (1 : Int) ∈ matchedRelIds [relDeletedM2O] [relCreatedM2M])
        ∧ ¬ ((1 : Int) ∈ createdRelIds [relDeletedM2O] [relCreatedM2M]
            ∧ (1 : Int) ∈ matchedRelIds [relDeletedM2O] [relCreatedM2M]))
       ∧ (((1 : Int) ∈ deletedRelIds [relDeletedM2O] [relCreatedM2M]
            ∨ (1 : Int) ∈ createdRelIds [relDeletedM2O] [relCreatedM2M]
            ∨ (1 : Int) ∈ matchedRelIds [relDeletedM2O] [relCreatedM2M])
          ↔ ((1 : Int) ∈ ([relDeletedM2O] : List Relation).map (fun r => r.id)
             ∨ (1 : Int) ∈ ([relCreatedM2M] : List Relation).map (fun r => r.id)))) :=
  ⟨⟨by decide, by decide⟩,
   relation_classifier_partitions [relDeletedM2O] [relCreatedM2M] 1 (by decide) (by decide)⟩

/-- Witness for C3: the concrete many-to-one to many-to-many pair for
relation 2, starting from the fresh diff `cD0`. -/
theorem type_change_m2o_to_m2m_two_ops_witness :
    (relUpdM2Oold.type = "many-to-one" ∧ relUpdM2Mnew2.type = "many-to-many"
     ∧ cD0.columns = some { create := [], delete := [] })
    ∧ handleRelationTypeChange namingFixture "Post" relUpdM2Oold relUpdM2Mnew2 cD0
        = (cD1, none) :=
  ⟨⟨rfl, rfl, rfl⟩, by
    have h := type_change_m2o_to_m2m_two_ops namingFixture "Post" relUpdM2Oold relUpdM2Mnew2 cD0
      { create := [], delete := [] } rfl rfl rfl
    exact h⟩

/-- Witness for C4: a created one-to-many relation without
`inversePropertyName` leaves the diff untouched and the pass continues. -/
theorem created_o2m_missing_inverse_skipped_witness :
    (([relCreatedO2MNoInv] : List Relation).find? (fun r => r.id == 7) = some relCreatedO2MNoInv
     ∧ relCreatedO2MNoInv.type = "one-to-many"
     ∧ jsTruthyStr relCreatedO2MNoInv.inversePropertyName = false)
    ∧ (createdRelStep namingFixture [relCreatedO2MNoInv] "Post" cD0 7 = (cD0, none)
       ∧ handleCreatedRelations namingFixture [relCreatedO2MNoInv] "Post" (7 :: []) (cD0, none)
           = handleCreatedRelations namingFixture [relCreatedO2MNoInv] "Post" [] (cD0, none)) :=
  ⟨⟨by decide, rfl, rfl⟩,
   created_o2m_missing_inverse_skipped namingFixture [relCreatedO2MNoInv] "Post" cD0 7
     relCreatedO2MNoInv [] (by decide) rfl rfl⟩

/-- Witness for C5: the created many-to-many relation "tags" on "Post"
targeting "Tag", starting from the fresh diff `cD0`. -/
theorem created_m2m_post_tags_tag_junction_witness :
    (([relCreatedM2M] : List Relation).find? (fun r => r.id == 3) = some relCreatedM2M
     ∧ relCreatedM2M.type = "many-to-many"
     ∧ relCreatedM2M.propertyName = "tags"
     ∧ relCreatedM2M.targetTableName = some (.str "Tag"))
    ∧ createdRelStep namingFixture [relCreatedM2M] "Post" cD0 3
        = ({ columns := some { create := [], delete := [] },
             crossTableOperations := none,
             junctionTables := some ({
               create := [{ tableName := "Post_tags", sourceTable := "Post",
                            targetTable := some (.str "Tag"), sourceColumn := "PostId",
                            targetColumn := "tagsId" }],
               drop := [], update := [] } : JunctionTables) }, none) :=
  ⟨⟨by decide, rfl, rfl, rfl⟩, by
    have h := created_m2m_post_tags_tag_junction namingFixture [relCreatedM2M] cD0 3
      relCreatedM2M (by decide) rfl rfl rfl
    exact h⟩

/-- Witness for C6: the concrete many-to-one to one-to-one pair for
relation 2 emits nothing. -/
theorem type_change_m2o_o2o_emits_nothing_witness :
    ((relUpdM2Oold.type = "many-to-one" ∧ relUpdO2Onew2.type = "one-to-one")
      ∨ (relUpdM2Oold.type = "one-to-one" ∧ relUpdO2Onew2.type = "many-to-one"))
    ∧ ((handleRelationTypeChange namingFixture "Post" relUpdM2Oold relUpdO2Onew2 cD0).2 = none
       ∧ ((handleRelationTypeChange namingFixture "Post" relUpdM2Oold relUpdO2Onew2 cD0).1).columns
           = cD0.columns
       ∧ ((handleRelationTypeChange namingFixture "Post" relUpdM2Oold relUpdO2Onew2 cD0).1).crossTableOperations.getD []
           = cD0.crossTableOperations.getD []
       ∧ ((handleRelationTypeChange namingFixture "Post" relUpdM2Oold relUpdO2Onew2 cD0).1).junctionTables.getD emptyJunctionTables
           = cD0.junctionTables.getD emptyJunctionTables) :=
  ⟨Or.inl ⟨rfl, rfl⟩,
   type_change_m2o_o2o_emits_nothing namingFixture "Post" relUpdM2Oold relUpdO2Onew2 cD0
     (Or.inl ⟨rfl, rfl⟩)⟩

/-- Witness for C7 (amended): identifier 5 found by the lookup is resolved;
a plain name passes through; identifier 5 absent from the lookup leaves the
name undefined. -/
theorem name_resolution_contract_amended_witness :
    (resolveRel [(5, "User")] "T" relRefFive).targetTableName = some (.str "User")
    ∧ (resolveRel [] "T" relPlainTag).targetTableName = some (.str "Tag")
    ∧ (resolveRel [] "T" relRefFive).targetTableName = none :=
  ⟨(name_resolution_contract_amended [(5, "User")] "T" relRefFive 5 "User").1
     rfl rfl (by decide) (by decide),
   (name_resolution_contract_amended [] "T" relPlainTag 5 "x").2.1 "Tag" rfl rfl,
   (name_resolution_contract_amended [] "T" relRefFive 5 "x").2.2.2 rfl rfl (by decide) rfl⟩
